import Mathlib

/-!
Verification of the fork-per-connection TCP server (`fork_server.c`).

The embedding models the observable behaviour of the C functions as pure
Lean functions over explicit models of the relevant system calls:

* `dostuff` (lines 40-59): the per-connection child logic — read into a
  zeroed 256-byte buffer (at most 255 bytes), print the buffer as a C
  string, write the fixed 18-byte reply; a negative return from `read`
  or `write` calls `error()`, which perror-logs and does `exit(1)`.
* `SigCatcher` (lines 75-79): `while (waitpid(-1, NULL, WNOHANG) > 0);`.
* `main` (lines 81-185): argc check, `socket`, `bind` (checked),
  `listen` (return value NOT checked), then the accept/fork loop in
  which the parent closes the connected socket and the child closes the
  listening socket.

System-call results (return values of `read`, `write`, `accept`,
`fork`, `socket`, `bind`, `listen`, and the queue of terminated
children seen by `waitpid`) are inputs of the model; the model computes
the trace of externally visible events the C code performs for those
results.
-/

namespace ForkServer

/-- The byte string `"I got your message"` passed to `write` at line 56
of `fork_server.c`, together with the explicit count 18.
Bytes: I, space, g, o, t, space, y, o, u, r, space, m, e, s, s, a, g, e. -/
def theReply : List Nat :=
  [73, 32, 103, 111, 116, 32, 121, 111, 117, 114, 32,
   109, 101, 115, 115, 97, 103, 101]

/-- `read(sockfd, buffer, count)` overlays the bytes it received on the
front of the buffer; the rest of the buffer is untouched. -/
def readInto (buf : List Nat) (data : List Nat) : List Nat :=
  data ++ buf.drop data.length

/-- The 256-byte `buffer` of `dostuff` after `bzero(buffer, sizeof(buffer))`
(line 46) and `read(sockfd, buffer, sizeof(buffer) - 1)` (line 49): the
buffer starts as 256 zero bytes and the read stores at most 255 bytes
(`data.take 255` is the syscall's count limit). -/
def bufAfterRead (data : List Nat) : List Nat :=
  readInto (List.replicate 256 0) (data.take 255)

/-- The bytes `printf("%s", ...)` actually consumes from a byte buffer:
everything up to the first NUL byte. -/
def cString (bs : List Nat) : List Nat :=
  bs.takeWhile (fun b => b != 0)

/-- Externally visible events of the forked child process. -/
inductive ChildEvent where
  /-- `close(sockfd)` — the child closes the listening socket (line 166). -/
  | closeListen
  /-- `close(newsockfd)` — the child closes the connected socket (line 172). -/
  | closeConn
  /-- `printf("Message from client: %s\n", buffer)` (line 53); the payload
  is the C-string content of the buffer. -/
  | printMsg (bs : List Nat)
  /-- `write(sockfd, ..., 18)` (line 56); the payload is the bytes handed
  to the transport. -/
  | writeData (bs : List Nat)
  /-- `perror(msg)` inside `error()` (line 26). -/
  | perrorMsg (m : String)
  /-- `exit(n)` (line 27 via `error()`, or line 175). -/
  | exitCode (n : Nat)
deriving DecidableEq

/-- `error(msg)` (lines 24-28): `perror(msg); exit(1);`. -/
def errorEvents (m : String) : List ChildEvent :=
  [ChildEvent.perrorMsg m, ChildEvent.exitCode 1]

/-- `dostuff` (lines 40-59). `readRes` models the result of the `read`
call: `Except.error ()` is a negative return (`n < 0`), `Except.ok data`
is a successful read that stored `data` in the buffer. `writeRet` is the
return value of the `write` call. The result is the list of events
performed plus a flag saying whether `error()` terminated the process. -/
def dostuff (readRes : Except Unit (List Nat)) (writeRet : Int) :
    List ChildEvent × Bool :=
  match readRes with
  | Except.error _ => (errorEvents "ERROR reading from socket", true)
  | Except.ok data =>
      let pr := ChildEvent.printMsg (cString (bufAfterRead data))
      if writeRet < 0 then
        ([pr, ChildEvent.writeData theReply] ++
           errorEvents "ERROR writing to socket", true)
      else
        ([pr, ChildEvent.writeData theReply], false)

/-- The child branch of the accept loop (lines 163-175):
`close(sockfd); dostuff(newsockfd); close(newsockfd); exit(0);`.
If `dostuff`'s `error()` already exited the process, the final
`close(newsockfd)` and `exit(0)` are never reached. -/
def childProcess (readRes : Except Unit (List Nat)) (writeRet : Int) :
    List ChildEvent :=
  ChildEvent.closeListen ::
    ((dostuff readRes writeRet).1 ++
      (if (dostuff readRes writeRet).2 then []
       else [ChildEvent.closeConn, ChildEvent.exitCode 0]))

/-- The payload of a `writeData` event, `none` for every other event. -/
def writePayload : ChildEvent → Option (List Nat)
  | ChildEvent.closeListen => none
  | ChildEvent.closeConn => none
  | ChildEvent.printMsg _ => none
  | ChildEvent.writeData bs => some bs
  | ChildEvent.perrorMsg _ => none
  | ChildEvent.exitCode _ => none

/-- All byte strings handed to the transport in a child trace. -/
def writtenData (evs : List ChildEvent) : List (List Nat) :=
  evs.filterMap writePayload

/-- `SigCatcher` (lines 75-79): `while (waitpid(-1, NULL, WNOHANG) > 0);`.
The state is the queue of already-terminated, not-yet-reaped children
(their pids, as the `pid_t` values `waitpid` returns). Each successful
`waitpid` removes the front pid and returns it; the loop continues while
the returned value is `> 0`; on an empty queue `waitpid` returns `0` or
`-1` under `WNOHANG` and the loop stops. -/
def sigCatcher : List Int → List Int
  | [] => []
  | p :: rest => if 0 < p then sigCatcher rest else p :: rest

/-- Return values of the system calls made during server startup. -/
structure SysCalls where
  socketRet : Int
  bindRet : Int
  listenRet : Int
deriving DecidableEq

/-- Externally visible events of `main` up to the accept loop. -/
inductive StartEvent where
  /-- `signal(SIGCHLD, SigCatcher)` (line 95). -/
  | sigchldInstalled
  /-- `fprintf(stderr, "ERROR, no port provided\n")` (line 102). -/
  | usageError
  /-- the `socket(AF_INET, SOCK_STREAM, 0)` call (line 111). -/
  | socketCall
  /-- the `bind(...)` call (line 131). -/
  | bindCall
  /-- the `listen(sockfd, 5)` call (line 138). -/
  | listenCall
  /-- `perror(m)` via `error()`. -/
  | perrorEvent (m : String)
  /-- `exit(n)`. -/
  | exitEvent (n : Nat)
  /-- control reaches the `while (1)` accept loop (line 146). -/
  | acceptLoopEntered
deriving DecidableEq

/-- How startup ends. -/
inductive StartupOutcome where
  /-- the process exited with the given status before the accept loop. -/
  | exitedWith (code : Nat)
  /-- the server reached the accept loop. -/
  | accepting
deriving DecidableEq

/-- Startup portion of `main` (lines 95-146): install the SIGCHLD
handler, check `argc < 2` (usage error, `exit(1)`), call `socket` and
check its result, call `bind` and check its result, call `listen` —
whose return value the code DISCARDS (line 138 is a bare statement) —
then enter the accept loop. `sys.listenRet` is deliberately never
consulted, exactly as in the source. -/
def serverStartup (argc : Nat) (sys : SysCalls) :
    List StartEvent × StartupOutcome :=
  if argc < 2 then
    ([StartEvent.sigchldInstalled, StartEvent.usageError,
      StartEvent.exitEvent 1], StartupOutcome.exitedWith 1)
  else if sys.socketRet < 0 then
    ([StartEvent.sigchldInstalled, StartEvent.socketCall,
      StartEvent.perrorEvent "ERROR opening socket",
      StartEvent.exitEvent 1], StartupOutcome.exitedWith 1)
  else if sys.bindRet < 0 then
    ([StartEvent.sigchldInstalled, StartEvent.socketCall,
      StartEvent.bindCall,
      StartEvent.perrorEvent "ERROR on binding",
      StartEvent.exitEvent 1], StartupOutcome.exitedWith 1)
  else
    ([StartEvent.sigchldInstalled, StartEvent.socketCall,
      StartEvent.bindCall, StartEvent.listenCall,
      StartEvent.acceptLoopEntered], StartupOutcome.accepting)

/-- Result of the `fork()` call at line 159 as seen by one process. -/
inductive ForkRet where
  /-- `fork()` returned a negative value. -/
  | fail
  /-- `fork()` returned 0: this is the child. -/
  | child
  /-- `fork()` returned the child's pid: this is the parent. -/
  | parent (pid : Nat)
deriving DecidableEq

/-- Outcome of one iteration of the accept loop for the accepting
process. -/
inductive IterOutcome where
  /-- `error(msg)` ran: perror-log and `exit(code)` of the whole server. -/
  | fatalExit (code : Nat) (msg : String)
  /-- the parent closed the connected socket and went back to `accept`;
  the flag records that `close(newsockfd)` was performed (line 180). -/
  | continueLoop (connClosed : Bool)
  /-- this process is the forked child, handling the given connected
  socket. -/
  | childRun (connFd : Nat)
deriving DecidableEq

/-- One iteration of the accept loop (lines 146-182). `acceptRet` is the
return value of `accept` (line 149): a negative value makes the code
call `error("ERROR on accept")`, regardless of whether the underlying
condition was transient. Otherwise `fork()` runs (line 159): a negative
return calls `error("ERROR on fork")`; in the parent the connected
socket is closed and the loop continues; in the child control moves to
the child branch modelled by `childProcess`. -/
def loopIteration (acceptRet : Int) (f : ForkRet) : IterOutcome :=
  if acceptRet < 0 then IterOutcome.fatalExit 1 "ERROR on accept"
  else
    match f with
    | ForkRet.fail => IterOutcome.fatalExit 1 "ERROR on fork"
    | ForkRet.child => IterOutcome.childRun acceptRet.toNat
    | ForkRet.parent _ => IterOutcome.continueLoop true

/-- Which of the two sockets a process still holds. -/
structure FdSet where
  hasListen : Bool
  hasConn : Bool
deriving DecidableEq

/-- Immediately after `fork()` both parent and child hold both the
listening socket and the freshly accepted connected socket. -/
def afterFork : FdSet := { hasListen := true, hasConn := true }

/-- The parent branch (lines 176-181) closes the connected socket. -/
def parentBranch (s : FdSet) : FdSet := { s with hasConn := false }

/-- The first action of the child branch (line 166) closes the
listening socket. -/
def childBranch (s : FdSet) : FdSet := { s with hasListen := false }

/-! ## Helper lemmas -/

theorem drop_replicate {α : Type} (a : α) : ∀ (m n : Nat),
    (List.replicate n a).drop m = List.replicate (n - m) a
  | 0, n => by simp
  | m + 1, 0 => by simp
  | m + 1, n + 1 => by
      simp [List.replicate_succ, drop_replicate a m n]

theorem getLast?_replicate_pos {α : Type} (a : α) (n : Nat) (h : 0 < n) :
    (List.replicate n a).getLast? = some a := by
  obtain ⟨m, rfl⟩ : ∃ m, n = m + 1 := ⟨n - 1, by omega⟩
  rw [List.replicate_succ', List.getLast?_append_of_ne_nil _ (by simp)]
  rfl

/-! ## Claims -/

/-- Claim C10: the data the Worker passes to `printf` is NUL-terminated:
`dostuff`'s buffer is 256 bytes, zeroed by `bzero`, and the `read` call
stores at most 255 bytes into it, so after the read the buffer still has
length 256 and its final byte is zero, whatever the request bytes are. -/
theorem buffer_nul_terminated (data : List Nat) :
    (bufAfterRead data).length = 256 ∧
    (bufAfterRead data).getLast? = some 0 := by
  have hk : (data.take 255).length ≤ 255 := by
    simp [List.length_take]
  constructor
  · simp only [bufAfterRead, readInto, List.length_append, List.length_drop,
      List.length_replicate]
    omega
  · rw [bufAfterRead, readInto, drop_replicate,
      List.getLast?_append_of_ne_nil _ ?_, getLast?_replicate_pos _ _ (by omega)]
    have h : 0 < 256 - (data.take 255).length := by omega
    simp only [ne_eq, List.replicate_eq_nil_iff, Nat.sub_eq_zero_iff_le]
    omega

/-- Claim C1: for every accepted connection whose request has length 0
to 255 bytes, the Worker (`dostuff`) hands the transport exactly one
byte string: the fixed reply `"I got your message"`, which is 18 bytes
long and has no trailing newline (byte 10) — independent of the
request's content. -/
theorem reply_is_fixed_18_bytes (data : List Nat) (w : Int)
    (h : data.length ≤ 255) :
    writtenData (dostuff (Except.ok data) w).1 = [theReply] ∧
    theReply.length = 18 ∧ theReply.getLast? ≠ some 10 := by
  refine ⟨?_, by decide, by decide⟩
  by_cases hw : w < 0 <;>
    simp [dostuff, writtenData, errorEvents, writePayload, hw]

/-- Witness for C1: a concrete 2-byte request (`"hi"`). -/
theorem reply_is_fixed_18_bytes_witness :
    writtenData (dostuff (Except.ok [104, 105]) 18).1 = [theReply] ∧
    theReply.length = 18 ∧ theReply.getLast? ≠ some 10 :=
  reply_is_fixed_18_bytes [104, 105] 18 (by decide)

/-- Claim C4: a zero-length read is not treated as an error by the
Worker: with `read` returning 0 (empty request) and the `write`
succeeding, the child runs the full success path — it prints the empty
C string, writes the fixed reply, closes the connected socket and exits
with status 0 — and `error("ERROR reading from socket")` is never
invoked (only a negative read result takes that path). -/
theorem empty_read_gets_reply (w : Int) (h : 0 ≤ w) :
    childProcess (Except.ok []) w =
      [ChildEvent.closeListen, ChildEvent.printMsg [],
       ChildEvent.writeData theReply, ChildEvent.closeConn,
       ChildEvent.exitCode 0] ∧
    ChildEvent.perrorMsg "ERROR reading from socket" ∉
      childProcess (Except.ok []) w := by
  have hw : ¬ w < 0 := by omega
  have hcs : cString (bufAfterRead []) = [] := by decide
  have hd : dostuff (Except.ok []) w =
      ([ChildEvent.printMsg [], ChildEvent.writeData theReply], false) := by
    simp [dostuff, hw, hcs]
  refine ⟨?_, ?_⟩ <;> simp only [childProcess, hd] <;> decide

/-- Witness for C4: the empty request with `write` returning 18. -/
theorem empty_read_gets_reply_witness :
    childProcess (Except.ok []) 18 =
      [ChildEvent.closeListen, ChildEvent.printMsg [],
       ChildEvent.writeData theReply, ChildEvent.closeConn,
       ChildEvent.exitCode 0] ∧
    ChildEvent.perrorMsg "ERROR reading from socket" ∉
      childProcess (Except.ok []) 18 :=
  empty_read_gets_reply 18 (by decide)

/-- Claim C5: each invocation of `SigCatcher` drains all
currently-pending terminated children, not just one: when every pid in
the pending queue is positive (as real pids are), the
`while (waitpid(-1, NULL, WNOHANG) > 0)` loop reaps until the queue is
empty, and only an empty queue makes it return. -/
theorem sigcatcher_drains_all (zs : List Int) (h : ∀ p ∈ zs, 0 < p) :
    sigCatcher zs = [] := by
  induction zs with
  | nil => rfl
  | cons p rest ih =>
      have hp : 0 < p := h p (List.mem_cons_self p rest)
      simp only [sigCatcher, if_pos hp]
      exact ih fun q hq => h q (List.mem_cons_of_mem _ hq)

/-- Witness for C5: three pending terminated children are all reaped in
one invocation. -/
theorem sigcatcher_drains_all_witness : sigCatcher [3, 5, 2] = [] :=
  sigcatcher_drains_all [3, 5, 2] (by decide)

/-- Claim C2 (code bug): the spec requires a transient `accept` failure
to be logged and the loop continued, but the code cannot do this: any
negative `accept` return — transient or not, the code never inspects
`errno` — reaches `error("ERROR on accept")`, which perror-logs and
exits the whole server with status 1. Evaluated here at a concrete
failing input: `accept` returns -1. -/
theorem accept_error_is_fatal :
    loopIteration (-1) (ForkRet.parent 5) =
      IterOutcome.fatalExit 1 "ERROR on accept" := by
  decide

/-- Counterexample for C3: with a successful `accept` (fd 4) and a
failing `fork`, the loop iteration does not close the connection and
continue — it runs `error("ERROR on fork")`, exiting the whole server
with status 1. -/
theorem fork_failure_not_continuing :
    loopIteration 4 ForkRet.fail ≠ IterOutcome.continueLoop true ∧
    loopIteration 4 ForkRet.fail =
      IterOutcome.fatalExit 1 "ERROR on fork" := by
  decide

/-- Claim C3 as amended: if `fork` fails after a successful `accept`,
the server logs the error via `perror` and exits the entire process
with status 1 — the offending connection is not closed and the accept
loop does not continue; a dispatch failure is always fatal. -/
theorem fork_failure_fatal (a : Int) (h : 0 ≤ a) :
    loopIteration a ForkRet.fail =
      IterOutcome.fatalExit 1 "ERROR on fork" := by
  have ha : ¬ a < 0 := by omega
  simp [loopIteration, ha]

/-- Witness for C3's amended theorem at the concrete accepted fd 4. -/
theorem fork_failure_fatal_witness :
    loopIteration 4 ForkRet.fail =
      IterOutcome.fatalExit 1 "ERROR on fork" :=
  fork_failure_fatal 4 (by decide)

/-- Counterexample for C6: with `socket` succeeding (fd 3), `bind`
succeeding (0) and `listen` failing (-1), the server still reaches the
accept loop and never exits — the claim that a listen failure is fatal
and the server never starts accepting is false, because line 138
discards `listen`'s return value. -/
theorem listen_failure_not_fatal :
    (serverStartup 2 ⟨3, 0, -1⟩).2 = StartupOutcome.accepting ∧
    StartEvent.exitEvent 1 ∉ (serverStartup 2 ⟨3, 0, -1⟩).1 ∧
    StartEvent.acceptLoopEntered ∈ (serverStartup 2 ⟨3, 0, -1⟩).1 := by
  decide

/-- Claim C6 as amended: at startup (with a port argument and a
successful `socket` call), a `bind` failure is fatal — the process
exits with status 1 and never reaches the accept loop — but the return
value of `listen` is not checked, so whenever `bind` succeeds the
server proceeds to the accept loop regardless of whether `listen`
failed. -/
theorem bind_fatal_listen_unchecked (argc : Nat) (sys : SysCalls)
    (ha : 2 ≤ argc) (hs : 0 ≤ sys.socketRet) :
    (sys.bindRet < 0 →
      (serverStartup argc sys).2 = StartupOutcome.exitedWith 1 ∧
      StartEvent.exitEvent 1 ∈ (serverStartup argc sys).1 ∧
      StartEvent.acceptLoopEntered ∉ (serverStartup argc sys).1) ∧
    (0 ≤ sys.bindRet →
      (serverStartup argc sys).2 = StartupOutcome.accepting) := by
  have ha2 : ¬ argc < 2 := by omega
  have hs2 : ¬ sys.socketRet < 0 := by omega
  constructor
  · intro hb
    simp [serverStartup, ha2, hs2, hb]
  · intro hb
    have hb2 : ¬ sys.bindRet < 0 := by omega
    simp [serverStartup, ha2, hs2, hb2]

/-- Witness for C6's amended theorem: `argc = 2`, `socket` returns 3,
`bind` fails with -1 while `listen` would return 0. -/
theorem bind_fatal_listen_unchecked_witness :
    ((⟨3, -1, 0⟩ : SysCalls).bindRet < 0 →
      (serverStartup 2 ⟨3, -1, 0⟩).2 = StartupOutcome.exitedWith 1 ∧
      StartEvent.exitEvent 1 ∈ (serverStartup 2 ⟨3, -1, 0⟩).1 ∧
      StartEvent.acceptLoopEntered ∉ (serverStartup 2 ⟨3, -1, 0⟩).1) ∧
    (0 ≤ (⟨3, -1, 0⟩ : SysCalls).bindRet →
      (serverStartup 2 ⟨3, -1, 0⟩).2 = StartupOutcome.accepting) :=
  bind_fatal_listen_unchecked 2 ⟨3, -1, 0⟩ (by decide) (by decide)

/-- Counterexample for C7: on the read-failure path (`read` returns a
negative value), the child's trace contains no `close(newsockfd)` at
all — `error()` exits the process directly, so the connected socket is
not explicitly closed on that exit path. -/
theorem close_missing_on_read_error :
    ChildEvent.closeConn ∉ childProcess (Except.error ()) 0 := by
  decide

/-- Claim C7 as amended: the child closes the connected socket
explicitly only on the fully successful path — `closeConn` appears in
its trace exactly when the read succeeded and the write returned
non-negative, and there it precedes `exit(0)`; on every other path
`error()` terminates the child with `exit(1)` without an explicit
close, the descriptor being released only implicitly by process
termination. -/
theorem close_exactly_on_success (r : Except Unit (List Nat)) (w : Int) :
    (ChildEvent.closeConn ∈ childProcess r w ↔
      (∃ d, r = Except.ok d) ∧ 0 ≤ w) ∧
    (ChildEvent.closeConn ∉ childProcess r w →
      ChildEvent.exitCode 1 ∈ childProcess r w) := by
  cases r with
  | error e =>
      constructor
      · simp [childProcess, dostuff, errorEvents]
      · intro _
        simp [childProcess, dostuff, errorEvents]
  | ok data =>
      by_cases hw : w < 0
      · have hnot : ¬ (0 : Int) ≤ w := by omega
        constructor
        · simp [childProcess, dostuff, errorEvents, hw, hnot]
        · intro _
          simp [childProcess, dostuff, errorEvents, hw]
      · have hyes : (0 : Int) ≤ w := by omega
        constructor
        · simp [childProcess, dostuff, errorEvents, hw, hyes]
        · intro hmem
          exact absurd (by simp [childProcess, dostuff, errorEvents, hw])
            hmem

/-- Witness for C7's amended theorem at the successful empty request. -/
theorem close_exactly_on_success_witness :
    (ChildEvent.closeConn ∈ childProcess (Except.ok []) 18 ↔
      (∃ d, (Except.ok [] : Except Unit (List Nat)) = Except.ok d) ∧
        (0 : Int) ≤ 18) ∧
    (ChildEvent.closeConn ∉ childProcess (Except.ok []) 18 →
      ChildEvent.exitCode 1 ∈ childProcess (Except.ok []) 18) :=
  close_exactly_on_success (Except.ok []) 18

/-- Claim C8: after a dispatch, ownership of the two endpoints is
disjoint — the parent branch closes its copy of the connected socket
and keeps the listening socket, while the child's first action is to
close its copy of the listening socket (its trace starts with
`closeListen`) and it keeps the connected socket; so exactly one party
holds each endpoint. -/
theorem ownership_transfer_after_dispatch :
    (parentBranch afterFork).hasConn = false ∧
    (parentBranch afterFork).hasListen = true ∧
    (childBranch afterFork).hasListen = false ∧
    (childBranch afterFork).hasConn = true ∧
    ∀ (r : Except Unit (List Nat)) (w : Int),
      (childProcess r w).head? = some ChildEvent.closeListen := by
  exact ⟨rfl, rfl, rfl, rfl, fun r w => rfl⟩

/-- Claim C9: invoked without the port argument (`argc < 2`), the
server writes the usage error, exits with status 1 (non-zero), and its
startup trace contains no `socket` call — the exit happens before any
socket is created. -/
theorem missing_port_usage_exit (argc : Nat) (sys : SysCalls)
    (h : argc < 2) :
    (serverStartup argc sys).1 =
      [StartEvent.sigchldInstalled, StartEvent.usageError,
       StartEvent.exitEvent 1] ∧
    StartEvent.socketCall ∉ (serverStartup argc sys).1 ∧
    (serverStartup argc sys).2 = StartupOutcome.exitedWith 1 ∧
    (1 : Nat) ≠ 0 := by
  refine ⟨?_, ?_, ?_, ?_⟩ <;> simp [serverStartup, if_pos h]

/-- Witness for C9: `argc = 1` (no port argument). -/
theorem missing_port_usage_exit_witness :
    (serverStartup 1 ⟨3, 0, 0⟩).1 =
      [StartEvent.sigchldInstalled, StartEvent.usageError,
       StartEvent.exitEvent 1] ∧
    StartEvent.socketCall ∉ (serverStartup 1 ⟨3, 0, 0⟩).1 ∧
    (serverStartup 1 ⟨3, 0, 0⟩).2 = StartupOutcome.exitedWith 1 ∧
    (1 : Nat) ≠ 0 :=
  missing_port_usage_exit 1 ⟨3, 0, 0⟩ (by decide)

end ForkServer
